import Mathlib

/-!
Verification of the decision core of the book-of-business system:
the policy flag engine (`agents/logic.py`), the profile merge engine and
recommendation synthesizer (`agents/recommendations.py`), and the alert
mapper (`iri_client 2.py`), embedded shallowly as executable Lean functions.

Conventions of the embedding:
* Python `dict` records become structures whose fields are `Option`-valued;
  `none` stands for an absent key or a falsy value wherever the source only
  tests truthiness (`policy.get(k)` guards).
* Date strings and epoch-millisecond numbers are represented by their parse
  result: `RawDate.valid day iso` when one of the accepted formats parses
  (with `day` the day number and `iso` the isoformat string the source
  returns), `RawDate.invalid raw` when parsing fails.  The current clock
  date `date.today()` becomes an explicit `today : Int` day-number argument.
* Python floats (rates, monetary values) are modelled as `ℚ`; a policy's
  monetary field is `Option (Option ℚ)`: the outer layer is presence of the
  nested `{"value": ...}` entry, the inner layer is float-convertibility.
-/

namespace BookCore

/-- Truthiness of an optional string, as Python evaluates `policy.get(k)`:
absent (`none`) and the empty string are falsy. -/
def truthyS : Option String → Bool
  | none => false
  | some s => s != ""

/-- `s.lower()`: lower-case every character. -/
def strLower (s : String) : String := ⟨s.data.map Char.toLower⟩

/-- Python's `pat in s` substring test. -/
def strContains (s pat : String) : Bool := decide (pat.data <:+: s.data)

/-- Python's `s.startswith(pat)`. -/
def strStarts (s pat : String) : Bool := decide (pat.data <+: s.data)

/-- A raw date field, represented by its parse result (see module header). -/
inductive RawDate
  | valid (day : Int) (iso : String)
  | invalid (raw : String)
deriving DecidableEq

/-- Truthiness of an optional raw date value: an absent field is falsy, a
string field is falsy when empty (the falsy epoch value `0` is folded into
`none`). -/
def truthyRD : Option RawDate → Bool
  | none => false
  | some (.valid _ _) => true
  | some (.invalid raw) => raw != ""

/-- One externally sourced policy record (`policy: dict[str, Any]`), with the
fields read by `logic.py` and `iri_client 2.py`.  `rolesPresent` is the
`"roles" in policy` key test; `roles`/`contacts` are the values after the
`or []` coercion. -/
structure PolicyRecord where
  status : Option String := none
  productName : Option String := none
  productCode : Option String := none
  productType : Option String := none
  policyNumber : Option String := none
  carrier : Option String := none
  effectiveDate : Option String := none
  rolesPresent : Bool := false
  roles : List String := []
  contacts : List String := []
  ID : Option String := none
  renewalDate : Option RawDate := none
  maturityDate : Option RawDate := none
  nextPremiumDueDate : Option RawDate := none
  coveredUntilDate : Option RawDate := none
  payoutSchedule : Bool := false
  cashValue : Option (Option ℚ) := none
  currentValue : Option (Option ℚ) := none
  annuityValue : Option (Option ℚ) := none
  faceAmount : Option (Option ℚ) := none
  deathBenefit : Option (Option ℚ) := none
  isMinRate : Bool := false
deriving DecidableEq

/-- Policies renewing within this many days get a replacement notification. -/
def RENEWAL_NOTIFICATION_DAYS : Int := 30

/-- The truthiness-respecting chain `a or b or c or d` over raw date fields:
first truthy value, `none` when every link is falsy. -/
def firstTruthyRD : List (Option RawDate) → Option RawDate
  | [] => none
  | x :: xs => if truthyRD x then x else firstTruthyRD xs

/-- `get_renewal_info`: renewal/maturity date and days until renewal.
`today` is the explicit stand-in for `date.today()`; `delta = d - today`,
clamped to `none` when negative; unparsable input keeps the raw string with
an undefined day count. -/
def get_renewal_info (today : Int) (policy : PolicyRecord) :
    Option String × Option Int :=
  match firstTruthyRD
      [policy.renewalDate, policy.maturityDate,
       policy.nextPremiumDueDate, policy.coveredUntilDate] with
  | none => (none, none)
  | some (.valid d iso) =>
      let delta := d - today
      (some iso, if 0 ≤ delta then some delta else none)
  | some (.invalid raw) => (some raw, none)

/-- Is `days_until_renewal` inside the `1 ≤ d ≤ RENEWAL_NOTIFICATION_DAYS`
renewal window? (`none` is outside.) -/
def inRenewalWindow : Option Int → Bool
  | none => false
  | some d => decide (1 ≤ d) && decide (d ≤ RENEWAL_NOTIFICATION_DAYS)

/-- `check_replacement_opportunity`: replacement flag and reason. -/
def check_replacement_opportunity (policy : PolicyRecord)
    (days_until_renewal : Option Int) : Bool × Option String :=
  let product_name := policy.productName.getD ""
  let product_code := policy.productCode.getD ""
  let status := strLower (policy.status.getD "")
  if status != "inforce" then (false, none)
  else if inRenewalWindow days_until_renewal then
    (true, some "Policy maturing in next 30 days; consider replacement options")
  else if strContains (strLower product_name) "fixed"
      || strContains (strLower product_name) "term" then
    (true, some "Fixed/term product may have replacement options for better value")
  else if product_code != "" && strStarts product_code "T" then
    (true, some "Term policy; conversion or replacement may be beneficial")
  else (false, none)

/-- The issue list `check_data_quality` accumulates: missing policy-level
required fields, and missing roles/contacts only when the record explicitly
carries a `roles` key with zero entries. -/
def data_quality_issues_list (policy : PolicyRecord) : List String :=
  (if !truthyS policy.policyNumber then ["Missing policy number"] else [])
  ++ (if !truthyS policy.carrier then ["Missing carrier"] else [])
  ++ (if !truthyS policy.effectiveDate then ["Missing effective date"] else [])
  ++ (if policy.roles.isEmpty && policy.contacts.isEmpty
        && truthyS policy.ID && policy.rolesPresent
      then ["Missing roles/contacts"] else [])

/-- `check_data_quality`: list of issue descriptions and overall severity. -/
def check_data_quality (policy : PolicyRecord) : List String × Option String :=
  let issues := data_quality_issues_list policy
  if issues.isEmpty then ([], none)
  else if issues.length ≥ 3 then (issues, some "high")
  else if issues.length ≥ 1 then (issues, some "medium")
  else (issues, some "low")

/-- `check_income_activation_eligible`: income-activation flag and reason. -/
def check_income_activation_eligible (policy : PolicyRecord) :
    Bool × Option String :=
  let product_type := strLower (policy.productType.getD "")
  let status := strLower (policy.status.getD "")
  if status != "inforce" then (false, none)
  else if strContains product_type "annuity" then
    if !policy.payoutSchedule then
      (true, some "Annuity in accumulation phase; eligible for income activation or RMD")
    else (true, some "Annuity with payout; income options may apply")
  else if strContains product_type "life" && policy.cashValue.isSome then
    (false, none)
  else (false, none)

/-- `recommend_schedule_meeting`: meeting flag and semicolon-joined reason. -/
def recommend_schedule_meeting (replacement : Bool)
    (data_quality_issues : List String) (income_eligible : Bool) :
    Bool × Option String :=
  let reasons :=
    (if replacement then ["Replacement opportunity"] else [])
    ++ (if !data_quality_issues.isEmpty then ["Data quality issues to resolve"] else [])
    ++ (if income_eligible then ["Income activation eligible"] else [])
  if reasons.isEmpty then (false, none)
  else (true, some (String.intercalate "; " reasons))

/-- The fields `apply_business_logic` adds to a policy (`PolicyFlags`). -/
structure PolicyFlags where
  renewal_date : Option String
  days_until_renewal : Option Int
  replacement_opportunity : Bool
  replacement_reason : Option String
  data_quality_issues : List String
  data_quality_severity : Option String
  income_activation_eligible : Bool
  income_activation_reason : Option String
  schedule_meeting : Bool
  schedule_meeting_reason : Option String
deriving DecidableEq

/-- `apply_business_logic`: all business rules applied to one policy.
`today` is the explicit stand-in for the `date.today()` read inside
`get_renewal_info`. -/
def apply_business_logic (today : Int) (policy : PolicyRecord) : PolicyFlags :=
  let ri := get_renewal_info today policy
  let repl := check_replacement_opportunity policy ri.2
  let dq := check_data_quality policy
  let inc := check_income_activation_eligible policy
  let sched := recommend_schedule_meeting repl.1 dq.1 inc.1
  { renewal_date := ri.1
    days_until_renewal := ri.2
    replacement_opportunity := repl.1
    replacement_reason := repl.2
    data_quality_issues := dq.1
    data_quality_severity := dq.2
    income_activation_eligible := inc.1
    income_activation_reason := inc.2
    schedule_meeting := sched.1
    schedule_meeting_reason := sched.2 }

/-! ### Profile merge engine and recommendation synthesizer
(`agents/recommendations.py`).  Merged Python dicts become structures of
`Option String` fields; a key that is absent and a key set to `None` are
identified, as every consumer reads the dict through `.get`. -/

/-- The `suitability` section of `ProfileChangesInput`. -/
structure SuitabilityChanges where
  riskTolerance : Option String := none
  timeHorizon : Option String := none
  liquidityNeeds : Option String := none
  clientObjectives : Option String := none
deriving DecidableEq

/-- The `client_goals` section of `ProfileChangesInput`. -/
structure ClientGoalsChanges where
  financialObjectives : Option String := none
  distributionPlan : Option String := none
  expectedHoldingPeriod : Option String := none
deriving DecidableEq

/-- The `client_profile` section of `ProfileChangesInput`. -/
structure ClientProfileChanges where
  grossIncome : Option String := none
  householdNetWorth : Option String := none
  householdLiquidAssets : Option String := none
  taxBracket : Option String := none
deriving DecidableEq

/-- `ProfileChangesInput`: the incoming three-section delta. -/
structure ProfileChangesInput where
  suitability : Option SuitabilityChanges := none
  client_goals : Option ClientGoalsChanges := none
  client_profile : Option ClientProfileChanges := none
deriving DecidableEq

/-- One row of the `client_suitability_profiles` DB table (the baseline
profile), with the columns both merge functions read. -/
structure DbSuitabilityRow where
  risk_tolerance : Option String := none
  primary_objective : Option String := none
  secondary_objective : Option String := none
  liquidity_importance : Option String := none
  investment_horizon : Option String := none
  withdrawal_horizon : Option String := none
  current_income_need : Option String := none
  age : Option String := none
  state : Option String := none
  annual_income_range : Option String := none
  net_worth_range : Option String := none
  liquid_net_worth_range : Option String := none
  tax_bracket : Option String := none
deriving DecidableEq

/-- The merged `suitability` dict produced by `_merge_suitability`: baseline
columns plus the keys only the delta can write (`time_horizon`,
`liquidity_needs`, `client_objectives`).  `seeded` records whether a
baseline row created its nine keys: Python seeds them even when every
column is NULL, which makes the dict truthy while all its values are
`None`, and that key-presence information is otherwise lost by the
absent-key/null-value identification. -/
structure MergedSuitability where
  seeded : Bool := false
  risk_tolerance : Option String := none
  primary_objective : Option String := none
  secondary_objective : Option String := none
  liquidity_importance : Option String := none
  investment_horizon : Option String := none
  withdrawal_horizon : Option String := none
  current_income_need : Option String := none
  age : Option String := none
  state : Option String := none
  time_horizon : Option String := none
  liquidity_needs : Option String := none
  client_objectives : Option String := none
deriving DecidableEq

/-- `_merge_suitability`: seed from the DB row, then let every present
delta field overwrite its (asymmetrically mapped) merged key. -/
def _merge_suitability (db_profile : Option DbSuitabilityRow)
    (changes : ProfileChangesInput) : MergedSuitability :=
  let base : MergedSuitability :=
    match db_profile with
    | none => {}
    | some d =>
        { seeded := true
          risk_tolerance := d.risk_tolerance
          primary_objective := d.primary_objective
          secondary_objective := d.secondary_objective
          liquidity_importance := d.liquidity_importance
          investment_horizon := d.investment_horizon
          withdrawal_horizon := d.withdrawal_horizon
          current_income_need := d.current_income_need
          age := d.age
          state := d.state }
  match changes.suitability with
  | none => base
  | some s =>
      { base with
        risk_tolerance :=
          if s.riskTolerance.isSome then s.riskTolerance else base.risk_tolerance
        time_horizon :=
          if s.timeHorizon.isSome then s.timeHorizon else base.time_horizon
        liquidity_needs :=
          if s.liquidityNeeds.isSome then s.liquidityNeeds else base.liquidity_needs
        client_objectives :=
          if s.clientObjectives.isSome then s.clientObjectives else base.client_objectives }

/-- The merged goals/profile dict produced by `_merge_goals_and_profile`.
`seeded` records whether a baseline row created its four keys (see
`MergedSuitability.seeded`). -/
structure MergedGoals where
  seeded : Bool := false
  annual_income_range : Option String := none
  net_worth_range : Option String := none
  liquid_net_worth_range : Option String := none
  tax_bracket : Option String := none
  financial_objectives : Option String := none
  distribution_plan : Option String := none
  expected_holding_period : Option String := none
  gross_income : Option String := none
  household_net_worth : Option String := none
  household_liquid_assets : Option String := none
deriving DecidableEq

/-- `_merge_goals_and_profile`: seed from the DB row, then apply the
`client_goals` section and then the `client_profile` section. -/
def _merge_goals_and_profile (db_profile : Option DbSuitabilityRow)
    (changes : ProfileChangesInput) : MergedGoals :=
  let base : MergedGoals :=
    match db_profile with
    | none => {}
    | some d =>
        { seeded := true
          annual_income_range := d.annual_income_range
          net_worth_range := d.net_worth_range
          liquid_net_worth_range := d.liquid_net_worth_range
          tax_bracket := d.tax_bracket }
  let afterGoals : MergedGoals :=
    match changes.client_goals with
    | none => base
    | some g =>
        { base with
          financial_objectives :=
            if g.financialObjectives.isSome then g.financialObjectives
            else base.financial_objectives
          distribution_plan :=
            if g.distributionPlan.isSome then g.distributionPlan
            else base.distribution_plan
          expected_holding_period :=
            if g.expectedHoldingPeriod.isSome then g.expectedHoldingPeriod
            else base.expected_holding_period }
  match changes.client_profile with
  | none => afterGoals
  | some p =>
      { afterGoals with
        gross_income :=
          if p.grossIncome.isSome then p.grossIncome else afterGoals.gross_income
        household_net_worth :=
          if p.householdNetWorth.isSome then p.householdNetWorth
          else afterGoals.household_net_worth
        household_liquid_assets :=
          if p.householdLiquidAssets.isSome then p.householdLiquidAssets
          else afterGoals.household_liquid_assets
        tax_bracket :=
          if p.taxBracket.isSome then p.taxBracket else afterGoals.tax_bracket }

/-- A Sureify catalog entry after `_sureify_product_to_canonical`: the
key-aliasing and attribute flattening of that adapter are absorbed into the
input shape; `rate` is the parsed numeric rate (`none` for a missing or
non-numeric/`"N/A"` rate, the `"%"`-suffix formatting being invisible once
rates are numeric). -/
structure CanonProduct where
  product_id : String := ""
  name : String := "Unknown"
  carrier : String := ""
  rate : Option ℚ := none
  risk_profile : Option String := none
deriving DecidableEq

/-- One row of the DB `products` table (legacy shape). -/
structure DbProduct where
  product_id : String := ""
  product_name : String := "Unknown"
  carrier : String := ""
  current_fixed_rate : Option ℚ := none
  guaranteed_minimum_rate : Option ℚ := none
  free_withdrawal_percent : Option ℚ := none
  cdsc_years : Option String := none
  risk_profile : Option String := none
  suitable_for : Option String := none
  key_benefits : Option String := none
deriving DecidableEq

/-- A `ProductRecommendation`; `rate` is the parsed numeric rate carried by
the rate string (`none` for `"N/A"`/non-numeric). -/
structure ProductRecommendation where
  product_id : String
  name : String
  carrier : String
  rate : Option ℚ
  term : Option String := none
  surrenderPeriod : Option String := none
  freeWithdrawal : Option ℚ := none
  guaranteedMinRate : Option ℚ := none
  risk_profile : Option String := none
  suitable_for : Option String := none
  key_benefits : Option String := none
  match_reason : String := ""
deriving DecidableEq

/-- Truthiness of an optional numeric: Python's `x or y` treats `0.0` and
`None` as falsy. -/
def truthyQ : Option ℚ → Bool
  | none => false
  | some q => q != 0

/-- The truthiness-respecting chain `a or b` over optional strings. -/
def orS (a b : Option String) : Option String := if truthyS a then a else b

/-- `_build_match_reason_from_context`: human-readable match reason from the
merged suitability and goals dicts. -/
def _build_match_reason_from_context (ms : MergedSuitability)
    (mg : MergedGoals) : String :=
  let risk := (ms.risk_tolerance.getD "").trim
  let th := ((orS ms.time_horizon ms.investment_horizon).getD "").trim
  let liq := ((orS ms.liquidity_needs ms.liquidity_importance).getD "").trim
  let obj := ((orS ms.client_objectives mg.financial_objectives).getD "").trim
  let hold := (mg.expected_holding_period.getD "").trim
  let reasons :=
    (if risk != "" then ["risk tolerance: " ++ risk] else [])
    ++ (if th != "" then ["time horizon: " ++ th] else [])
    ++ (if liq != "" then ["liquidity: " ++ liq] else [])
    ++ (if obj != "" then
          ["objectives: " ++ obj.take 80 ++ (if obj.length > 80 then "..." else "")]
        else [])
    ++ (if hold != "" then ["holding period: " ++ hold] else [])
  if reasons.isEmpty then "Recommended from Sureify product catalog based on profile."
  else "Contextualized from your profile: " ++ String.intercalate "; " reasons

/-- Pros/cons of staying vs. switching (`ReasonsToSwitch`). -/
structure ReasonsToSwitch where
  pros : List String
  cons : List String
deriving DecidableEq

/-- `_build_reasons_to_switch`: fixed pros; cons derived from the numeric
rates among the recommendations. -/
def _build_reasons_to_switch (recommendations : List ProductRecommendation) :
    ReasonsToSwitch :=
  let pros :=
    ["No new paperwork or underwriting",
     "Maintains existing carrier relationship",
     "Surrender period already expired or minimal remaining"]
  let rates := recommendations.filterMap (fun r => r.rate)
  let cons :=
    match rates with
    | [] =>
        if recommendations.isEmpty then []
        else ["Missing opportunity to capture higher market rates (check current product rates)"]
    | r :: rs =>
        let max_rate := rs.foldl max r
        let min_rate := rs.foldl min r
        (if min_rate < max_rate then
          ["Significant rate drop to guaranteed minimum " ++ toString min_rate ++ "%"]
        else [])
        ++ (if max_rate > 0 then
          ["Missing opportunity to capture higher market rates (" ++ toString max_rate ++ "% available)"]
        else [])
  { pros := pros, cons := cons }

/-- Structured explanation of the run's choices (`ChoiceExplanation`). -/
structure ChoiceExplanation where
  summary : String
  data_sources_used : List String
  choice_criteria : List String
  input_sections_received : List String
deriving DecidableEq

/-- Python dict truthiness of `merged_suit`: the dict has at least one key.
A baseline row seeds its keys even with all-NULL values (`seeded`); without
a baseline, keys exist exactly for the present delta fields. -/
def MergedSuitability.nonEmptyDict (ms : MergedSuitability) : Bool :=
  ms.seeded || ms.risk_tolerance.isSome || ms.primary_objective.isSome
    || ms.secondary_objective.isSome || ms.liquidity_importance.isSome
    || ms.investment_horizon.isSome || ms.withdrawal_horizon.isSome
    || ms.current_income_need.isSome || ms.age.isSome || ms.state.isSome
    || ms.time_horizon.isSome || ms.liquidity_needs.isSome
    || ms.client_objectives.isSome

/-- Python dict truthiness of `merged_goals` (see
`MergedSuitability.nonEmptyDict`). -/
def MergedGoals.nonEmptyDict (mg : MergedGoals) : Bool :=
  mg.seeded || mg.annual_income_range.isSome || mg.net_worth_range.isSome
    || mg.liquid_net_worth_range.isSome || mg.tax_bracket.isSome
    || mg.financial_objectives.isSome || mg.distribution_plan.isSome
    || mg.expected_holding_period.isSome || mg.gross_income.isSome
    || mg.household_net_worth.isSome || mg.household_liquid_assets.isSome

/-- `_build_choice_explanation`. -/
def _build_choice_explanation (use_sureify : Bool) (ms : MergedSuitability)
    (mg : MergedGoals) (changes : ProfileChangesInput)
    (recommendation_count : Nat) : ChoiceExplanation :=
  let data_sources_used :=
    (if use_sureify then ["sureify_products"] else ["db_products"])
    ++ (if ms.nonEmptyDict || mg.nonEmptyDict then ["db_suitability"] else [])
  let criteria :=
    (if (ms.risk_tolerance.getD "").trim != "" then ["risk tolerance"] else [])
    ++ (if ((orS ms.time_horizon ms.investment_horizon).getD "").trim != ""
        then ["time horizon"] else [])
    ++ (if ((orS ms.liquidity_needs ms.liquidity_importance).getD "").trim != ""
        then ["liquidity needs"] else [])
    ++ (if ((orS ms.client_objectives mg.financial_objectives).getD "").trim != ""
        then ["financial objectives"] else [])
    ++ (if (mg.expected_holding_period.getD "").trim != ""
        then ["expected holding period"] else [])
  let criteria := if criteria.isEmpty then ["product catalog match"] else criteria
  let input_sections :=
    (if changes.suitability.isSome then ["suitability"] else [])
    ++ (if changes.client_goals.isSome then ["clientGoals"] else [])
    ++ (if changes.client_profile.isSome then ["clientProfile"] else [])
  let catalog := if use_sureify then "available product catalog" else "product catalog"
  let summary :=
    "Opportunity Generator produced " ++ toString recommendation_count
    ++ " opportunities presented from the " ++ catalog
    ++ ", contextualized using: " ++ String.intercalate ", " criteria
    ++ ". Input sections received: "
    ++ (if input_sections.isEmpty then "none" else String.intercalate ", " input_sections)
    ++ "."
  { summary := summary
    data_sources_used := data_sources_used
    choice_criteria := criteria
    input_sections_received := input_sections }

/-- The recommendations built from the Sureify catalog before sorting:
entries without a `product_id` are skipped, the shared match reason is
attached to each. -/
def buildSureifyRecs (base_reason : String) (catalog : List CanonProduct) :
    List ProductRecommendation :=
  (catalog.filter (fun p => p.product_id != "")).map fun p =>
    { product_id := p.product_id
      name := p.name
      carrier := p.carrier
      rate := p.rate
      risk_profile := p.risk_profile
      match_reason := base_reason }

/-- The rate a DB product advertises: `current_fixed_rate or
guaranteed_minimum_rate` with Python truthiness, then `_format_rate`
(`none` prints as `"N/A"`). -/
def dbProductRate (p : DbProduct) : Option ℚ :=
  if truthyQ p.current_fixed_rate then p.current_fixed_rate
  else p.guaranteed_minimum_rate

/-- The recommendations built from the DB products table before sorting. -/
def buildDbRecs (base_reason : String) (products : List DbProduct) :
    List ProductRecommendation :=
  (products.filter (fun p => p.product_id != "")).map fun p =>
    { product_id := p.product_id
      name := p.product_name
      carrier := p.carrier
      rate := dbProductRate p
      surrenderPeriod := p.cdsc_years
      freeWithdrawal := p.free_withdrawal_percent
      guaranteedMinRate := p.guaranteed_minimum_rate
      risk_profile := p.risk_profile
      suitable_for := p.suitable_for
      key_benefits := p.key_benefits
      match_reason := base_reason }

/-- `rate_sort_key`: numeric value of the rate string; a missing or
non-numeric rate (`none`) sorts as `0`. -/
def rate_sort_key (r : ProductRecommendation) : ℚ := r.rate.getD 0

/-- The comparison handed to the stable sort: descending by
`rate_sort_key`, as `list.sort(key=rate_sort_key, reverse=True)`. -/
def rateDescLE (a b : ProductRecommendation) : Bool :=
  decide (rate_sort_key b ≤ rate_sort_key a)

/-- The default `max_recommendations`. -/
def default_max_recommendations : Nat := 10

/-- The output of a recommendation run (`ProductRecommendationsOutput`). -/
structure ProductRecommendationsOutput where
  client_id : String
  merged_suitability : MergedSuitability
  merged_goals : MergedGoals
  recommendations : List ProductRecommendation
  explanation : ChoiceExplanation
  reasons_to_switch : ReasonsToSwitch
deriving DecidableEq

/-- The candidate recommendation list before sorting: from the Sureify
catalog when it is non-empty, else from the DB products table, each entry
carrying the shared profile-derived match reason. -/
def candidateRecs (db_suit : Option DbSuitabilityRow)
    (sureify_products : List CanonProduct) (db_products : List DbProduct)
    (changes : ProfileChangesInput) : List ProductRecommendation :=
  let merged_suit := _merge_suitability db_suit changes
  let merged_goals := _merge_goals_and_profile db_suit changes
  let base_reason := _build_match_reason_from_context merged_suit merged_goals
  if sureify_products.length > 0 then buildSureifyRecs base_reason sureify_products
  else buildDbRecs base_reason db_products

/-- `generate_recommendations`: merge the baseline profile with the delta,
build candidate recommendations from the preferred catalog source, sort
stably by descending numeric rate (`list.sort(key=rate_sort_key,
reverse=True)`, a stable sort, embedded as `List.mergeSort`) and truncate
to `max_recommendations`.  The client-row/profile-row resolution step of
the source (a pure selection from the DB context by account number or name
substring) is abstracted as the already-selected `db_suit` parameter; no
verified property depends on which row is picked. -/
def generate_recommendations (client_id : String)
    (db_suit : Option DbSuitabilityRow) (sureify_products : List CanonProduct)
    (db_products : List DbProduct) (changes : ProfileChangesInput)
    (max_recommendations : Nat) : ProductRecommendationsOutput :=
  let merged_suit := _merge_suitability db_suit changes
  let merged_goals := _merge_goals_and_profile db_suit changes
  let use_sureify := sureify_products.length > 0
  let recs := candidateRecs db_suit sureify_products db_products changes
  let recs := (recs.mergeSort rateDescLE).take max_recommendations
  { client_id := client_id
    merged_suitability := merged_suit
    merged_goals := merged_goals
    recommendations := recs
    explanation :=
      _build_choice_explanation use_sureify merged_suit merged_goals changes
        recs.length
    reasons_to_switch := _build_reasons_to_switch recs }

/-! ### Alert mapper (`iri_client 2.py`). -/

/-- `AlertType` enum of the IRI schema. -/
inductive AlertType
  | replacement_opportunity
  | missing_info
  | income_planning
  | suitability_review
deriving DecidableEq

/-- `Priority` enum of the IRI schema. -/
inductive Priority
  | high
  | medium
  | low
deriving DecidableEq

/-- A `PolicyNotification` attached to a policy by the agent layer. -/
structure PolicyNotification where
  notification_type : String
  message : String
  policy_id : Option String := none
  severity : Option String := none
deriving DecidableEq

/-- `PolicyOutput`: one policy with its agent-derived fields (schemas.py). -/
structure PolicyOutput where
  policy : PolicyRecord
  notifications : List PolicyNotification := []
  replacement_opportunity : Bool := false
  replacement_reason : Option String := none
  data_quality_issues : List String := []
  data_quality_severity : Option String := none
  income_activation_eligible : Bool := false
  income_activation_reason : Option String := none
  schedule_meeting : Bool := false
  schedule_meeting_reason : Option String := none
  renewal_date : Option String := none
  days_until_renewal : Option Int := none
deriving DecidableEq

/-- `BookOfBusinessOutput`: the per-customer batch of policy outputs. -/
structure BookOfBusinessOutput where
  customer_identifier : String
  policies : List PolicyOutput
deriving DecidableEq

/-- Floor of a rational, computed from its reduced numerator/denominator. -/
def floorQ (x : ℚ) : ℤ := x.num.fdiv x.den

/-- Python's `round(x, 2)`: to two decimal places, ties to the even cent. -/
def round2 (x : ℚ) : ℚ :=
  let y := x * 100
  let f : ℤ := floorQ y
  let frac := y - (f : ℚ)
  let r : ℤ :=
    if frac < 1/2 then f
    else if frac > 1/2 then f + 1
    else if 2 ∣ f then f else f + 1
  (r : ℚ) / 100

/-- `_policy_numeric_value`: the first of `currentValue`, `annuityValue`,
`cashValue`, `faceAmount`, `deathBenefit` that carries a nested `value`
convertible to a number; a present but non-numeric `value` is skipped and
the scan continues; `0.0` when none qualifies. -/
def firstNumeric : List (Option (Option ℚ)) → ℚ
  | [] => 0
  | field :: rest =>
      match field with
      | some (some q) => q
      | _ => firstNumeric rest

/-- `_policy_numeric_value` applied to a policy record. -/
def _policy_numeric_value (policy : PolicyRecord) : ℚ :=
  firstNumeric
    [policy.currentValue, policy.annuityValue, policy.cashValue,
     policy.faceAmount, policy.deathBenefit]

/-- `_policy_renewal_days`: placeholder days until renewal derived from the
raw policy; `30` when a due/covered-until date is present, else `0`. -/
def _policy_renewal_days (policy : PolicyRecord) : Int :=
  if truthyRD policy.nextPremiumDueDate || truthyRD policy.coveredUntilDate
  then 30 else 0

/-- `primary.value.replace("_", " ").title()`, specialized to the four
`AlertType` values. -/
def AlertType.titleText : AlertType → String
  | .replacement_opportunity => "Replacement Opportunity"
  | .missing_info => "Missing Info"
  | .income_planning => "Income Planning"
  | .suitability_review => "Suitability Review"

/-- `_build_alert_types_and_primary`: alert types in fixed priority order,
the primary type, and the alert description. -/
def _build_alert_types_and_primary (po : PolicyOutput) :
    List AlertType × AlertType × String :=
  let types :=
    (if po.replacement_opportunity then [AlertType.replacement_opportunity] else [])
    ++ (if !po.data_quality_issues.isEmpty then [AlertType.missing_info] else [])
    ++ (if po.income_activation_eligible then [AlertType.income_planning] else [])
  let desc_parts :=
    (if po.replacement_opportunity then
      [if truthyS po.replacement_reason then po.replacement_reason.getD ""
       else "Replacement opportunity"] else [])
    ++ (if !po.data_quality_issues.isEmpty then
      ["Data quality: " ++ String.intercalate "; " (po.data_quality_issues.take 3)]
      else [])
    ++ (if po.income_activation_eligible then
      [if truthyS po.income_activation_reason then po.income_activation_reason.getD ""
       else "Income activation eligible"] else [])
  let addReview :=
    po.schedule_meeting && !types.contains AlertType.suitability_review
  let types := types ++ (if addReview then [AlertType.suitability_review] else [])
  let desc_parts := desc_parts
    ++ (if addReview && truthyS po.schedule_meeting_reason then
          [po.schedule_meeting_reason.getD ""] else [])
  let (types, desc_parts) :=
    if types.isEmpty then ([AlertType.suitability_review], ["Review recommended"])
    else (types, desc_parts)
  let primary := types.headD AlertType.suitability_review
  let alert_description :=
    if desc_parts.isEmpty then primary.titleText
    else String.intercalate "; " desc_parts
  (types, primary, alert_description)

/-- `_priority_from_severity`. -/
def _priority_from_severity (severity : Option String) (has_replacement : Bool)
    (has_urgent_notif : Bool) : Priority :=
  if severity == some "high" || has_urgent_notif then .high
  else if severity == some "medium" || has_replacement then .medium
  else .low

/-- A `RenewalAlert` of the IRI schema.  The purely cosmetic formatted
ingredients of the source record that no verified property mentions
(`currentRate`, `renewalRate`, the `$`-formatted `currentValue`) are
omitted from the embedding. -/
structure RenewalAlert where
  id : String
  policyId : String
  clientName : String
  carrier : String
  renewalDate : String
  daysUntilRenewal : Int
  isMinRate : Bool
  priority : Priority
  hasDataException : Bool
  status : String
  alertType : AlertType
  alertDescription : String
  missingFields : Option (List String)
  alertTypes : List AlertType
deriving DecidableEq

/-- `DashboardStats` aggregate over an alert batch. -/
structure DashboardStats where
  total : Nat
  high : Nat
  urgent : Nat
  totalValue : ℚ
deriving DecidableEq

/-- The effective `days_until` of the mapper loop: the schema field when
set (e.g. from the flag engine), else the placeholder derived from the raw
policy. -/
def effectiveDaysUntil (po : PolicyOutput) : Int :=
  match po.days_until_renewal with
  | some d => d
  | none => _policy_renewal_days po.policy

/-- The alert `map_book_of_business_to_iri_alerts` builds for the `i`-th
policy output. -/
def processPolicy (customer : String) (i : Nat) (po : PolicyOutput) :
    RenewalAlert :=
  let policy := po.policy
  let policy_id :=
    if truthyS policy.ID then policy.ID.getD ""
    else if truthyS policy.policyNumber then policy.policyNumber.getD ""
    else "policy-" ++ toString i
  let carrier := if truthyS policy.carrier then policy.carrier.getD "" else "N/A"
  let days_until := effectiveDaysUntil po
  let btp := _build_alert_types_and_primary po
  let has_data_exception := !po.data_quality_issues.isEmpty
  let priority :=
    _priority_from_severity po.data_quality_severity po.replacement_opportunity
      (po.notifications.any fun n => n.severity == some "urgent")
  { id := "alert-" ++ policy_id ++ "-renewal"
    policyId := policy_id
    clientName := customer
    carrier := carrier
    renewalDate := if days_until > 0 then toString days_until ++ " Days" else "N/A"
    daysUntilRenewal := days_until
    isMinRate := policy.isMinRate
    priority := priority
    hasDataException := has_data_exception
    status := "pending"
    alertType := btp.2.1
    alertDescription := btp.2.2
    missingFields := if has_data_exception then some po.data_quality_issues else none
    alertTypes := btp.1 }

/-- The per-policy loop of `map_book_of_business_to_iri_alerts`: the alert
list together with the `total_value`, `high_count` and `urgent_count`
accumulators. -/
def mapLoop (customer : String) : List PolicyOutput → Nat →
    List RenewalAlert × ℚ × Nat × Nat
  | [], _ => ([], 0, 0, 0)
  | po :: rest, i =>
      let alert := processPolicy customer i po
      let r := mapLoop customer rest (i + 1)
      (alert :: r.1,
       _policy_numeric_value po.policy + r.2.1,
       (if alert.priority = .high then 1 else 0) + r.2.2.1,
       (if alert.daysUntilRenewal ≤ 30 then 1 else 0) + r.2.2.2)

/-- `map_book_of_business_to_iri_alerts`: one `RenewalAlert` per policy plus
the dashboard statistics. -/
def map_book_of_business_to_iri_alerts (book : BookOfBusinessOutput) :
    List RenewalAlert × DashboardStats :=
  let r := mapLoop book.customer_identifier book.policies 0
  (r.1,
   { total := r.1.length
     high := r.2.2.1
     urgent := r.2.2.2
     totalValue := round2 r.2.1 })

/-! ## Verified properties -/

/-- The severity classification as a function of the issue count, mirroring
the threshold chain of `check_data_quality`. -/
def severityOfCount (n : Nat) : Option String :=
  if n = 0 then none
  else if n ≥ 3 then some "high"
  else if n ≥ 1 then some "medium"
  else some "low"

/-- Numeric level of a severity label, for monotonicity statements. -/
def severityRank : Option String → Nat
  | none => 0
  | some s => if s = "low" then 1 else if s = "medium" then 2 else if s = "high" then 3 else 0

lemma severity_rank_mono (m n : Nat) (h : m ≤ n) :
    severityRank (severityOfCount m) ≤ severityRank (severityOfCount n) := by
  unfold severityOfCount
  split_ifs <;> simp_all [severityRank] <;> omega

/-- Characterization of `recommend_schedule_meeting`: the flag is set iff a
trigger is present, and the reason joins the triggering reasons. -/
lemma recommend_schedule_meeting_spec (repl : Bool) (dq : List String)
    (inc : Bool) :
    ((recommend_schedule_meeting repl dq inc).1 = true ↔
      (repl = true ∨ dq ≠ [] ∨ inc = true))
    ∧ ((recommend_schedule_meeting repl dq inc).1 = true →
      (recommend_schedule_meeting repl dq inc).2 =
        some (String.intercalate "; "
          ((if repl then ["Replacement opportunity"] else [])
           ++ (if dq ≠ [] then ["Data quality issues to resolve"] else [])
           ++ (if inc then ["Income activation eligible"] else [])))) := by
  cases repl <;> cases inc <;> cases dq <;>
    simp [recommend_schedule_meeting]

/-- C2: for every policy (and clock date), the flags computed by
`apply_business_logic` satisfy: `schedule_meeting` is true iff at least one
of `replacement_opportunity`, a non-empty `data_quality_issues`, or
`income_activation_eligible` holds; and when true, the reason is the
semicolon-joined list of the triggering reasons. -/
theorem schedule_meeting_iff_triggers (today : Int) (p : PolicyRecord) :
    ((apply_business_logic today p).schedule_meeting = true ↔
      ((apply_business_logic today p).replacement_opportunity = true
        ∨ (apply_business_logic today p).data_quality_issues ≠ []
        ∨ (apply_business_logic today p).income_activation_eligible = true))
    ∧ ((apply_business_logic today p).schedule_meeting = true →
      (apply_business_logic today p).schedule_meeting_reason =
        some (String.intercalate "; "
          ((if (apply_business_logic today p).replacement_opportunity then
              ["Replacement opportunity"] else [])
           ++ (if (apply_business_logic today p).data_quality_issues ≠ [] then
              ["Data quality issues to resolve"] else [])
           ++ (if (apply_business_logic today p).income_activation_eligible then
              ["Income activation eligible"] else [])))) := by
  have h := recommend_schedule_meeting_spec
    (check_replacement_opportunity p (get_renewal_info today p).2).1
    (check_data_quality p).1
    (check_income_activation_eligible p).1
  simpa [apply_business_logic] using h

/-- Witness for C2 at a concrete in-force annuity policy. -/
theorem schedule_meeting_iff_triggers_witness :
    (apply_business_logic 0
      { status := some "Inforce", productType := some "Fixed Annuity" }).schedule_meeting = true := by
  have h := (schedule_meeting_iff_triggers 0
    { status := some "Inforce", productType := some "Fixed Annuity" }).1
  exact h.mpr (Or.inr (Or.inr (by decide)))

/-- `check_data_quality` either reports no issues, or reports its non-empty
issue list with the severity determined by the issue count. -/
lemma check_data_quality_cases (p : PolicyRecord) :
    check_data_quality p = ([], none) ∨
    (∃ issues : List String, issues ≠ [] ∧
      check_data_quality p = (issues, severityOfCount issues.length)) := by
  unfold check_data_quality
  generalize data_quality_issues_list p = issues
  cases issues with
  | nil => left; simp
  | cons a t =>
      right
      refine ⟨a :: t, by simp, ?_⟩
      simp [severityOfCount]
      split_ifs <;> first | rfl | omega

/-- C5: severity is `none` exactly on an empty issue list, `"medium"` for
one or two issues, `"high"` for three or more; `"low"` is never returned;
and the severity level is monotone in the issue count. -/
theorem data_quality_severity_levels (p : PolicyRecord) :
    ((check_data_quality p).2 = none ↔ (check_data_quality p).1 = [])
    ∧ (check_data_quality p).2 = severityOfCount (check_data_quality p).1.length
    ∧ (1 ≤ (check_data_quality p).1.length → (check_data_quality p).1.length ≤ 2 →
        (check_data_quality p).2 = some "medium")
    ∧ (3 ≤ (check_data_quality p).1.length → (check_data_quality p).2 = some "high")
    ∧ (check_data_quality p).2 ≠ some "low"
    ∧ (∀ m n : Nat, m ≤ n →
        severityRank (severityOfCount m) ≤ severityRank (severityOfCount n)) := by
  rcases check_data_quality_cases p with h | ⟨issues, hne, h⟩
  · rw [h]
    exact ⟨by simp, by simp [severityOfCount], by simp, by simp, by simp,
      fun m n hmn => severity_rank_mono m n hmn⟩
  · rw [h]
    dsimp only
    refine ⟨?_, rfl, ?_, ?_, ?_, fun m n hmn => severity_rank_mono m n hmn⟩
    · unfold severityOfCount
      split_ifs <;> first | simp_all [List.length_eq_zero] | omega
    · intro h1 h2
      unfold severityOfCount
      split_ifs <;> first | rfl | omega
    · intro h3
      unfold severityOfCount
      split_ifs <;> first | rfl | omega
    · unfold severityOfCount
      split_ifs <;> first | omega | simp

/-- Witness for C5: a policy missing policy number and carrier (two issues)
gets severity `"medium"`. -/
theorem data_quality_severity_levels_witness :
    (check_data_quality { effectiveDate := some "2024-01-01" }).2 = some "medium" :=
  (data_quality_severity_levels { effectiveDate := some "2024-01-01" }).2.2.1
    (by decide) (by decide)

/-- C9: for an in-force policy whose product type contains `"annuity"`,
income activation is eligible on both the no-payout-schedule and the
payout-schedule-present branches, with distinct reasons; any non-annuity
product or non-inforce status yields `(false, none)`. -/
theorem income_activation_annuity_spec (p : PolicyRecord) :
    (strLower (p.status.getD "") = "inforce" →
      strContains (strLower (p.productType.getD "")) "annuity" = true →
      ((p.payoutSchedule = false →
          check_income_activation_eligible p =
            (true, some "Annuity in accumulation phase; eligible for income activation or RMD"))
        ∧ (p.payoutSchedule = true →
          check_income_activation_eligible p =
            (true, some "Annuity with payout; income options may apply"))))
    ∧ (("Annuity in accumulation phase; eligible for income activation or RMD" : String)
        ≠ "Annuity with payout; income options may apply")
    ∧ (strLower (p.status.getD "") ≠ "inforce" →
        check_income_activation_eligible p = (false, none))
    ∧ (strContains (strLower (p.productType.getD "")) "annuity" = false →
        check_income_activation_eligible p = (false, none)) := by
  unfold check_income_activation_eligible
  refine ⟨?_, by decide, ?_, ?_⟩
  · intro hs ha
    constructor <;> intro hp <;> simp [hs, ha, hp]
  · intro hs
    simp [hs]
  · intro ha
    by_cases hs : strLower (p.status.getD "") = "inforce"
    · simp [hs, ha]
    · simp [hs]

/-- Witness for C9 at concrete in-force annuities, one without and one with
a payout schedule. -/
theorem income_activation_annuity_spec_witness :
    check_income_activation_eligible
        { status := some "inforce", productType := some "Variable Annuity" } =
      (true, some "Annuity in accumulation phase; eligible for income activation or RMD")
    ∧ check_income_activation_eligible
        { status := some "inforce", productType := some "Variable Annuity",
          payoutSchedule := true } =
      (true, some "Annuity with payout; income options may apply") :=
  ⟨((income_activation_annuity_spec
      { status := some "inforce", productType := some "Variable Annuity" }).1
      (by decide) (by decide)).1 rfl,
   ((income_activation_annuity_spec
      { status := some "inforce", productType := some "Variable Annuity",
        payoutSchedule := true }).1
      (by decide) (by decide)).2 rfl⟩

/-- The renewal window test holds exactly for a known day count between 1
and 30. -/
lemma inRenewalWindow_iff (d : Option Int) :
    inRenewalWindow d = true ↔ ∃ dv, d = some dv ∧ 1 ≤ dv ∧ dv ≤ 30 := by
  cases d with
  | none => simp [inRenewalWindow]
  | some dv => simp [inRenewalWindow, RENEWAL_NOTIFICATION_DAYS]

/-- C6: replacement opportunity requires case-insensitive status
`"inforce"`; given that, the maturing-replacement reason is produced
exactly when `1 ≤ days_until_renewal ≤ 30`; otherwise a fixed/term
heuristic match yields one of the two heuristic reasons; otherwise
`(false, none)`. -/
theorem replacement_opportunity_spec (p : PolicyRecord) (d : Option Int) :
    (strLower (p.status.getD "") ≠ "inforce" →
      check_replacement_opportunity p d = (false, none))
    ∧ (strLower (p.status.getD "") = "inforce" →
        (check_replacement_opportunity p d =
            (true, some "Policy maturing in next 30 days; consider replacement options")
          ↔ ∃ dv, d = some dv ∧ 1 ≤ dv ∧ dv ≤ 30))
    ∧ (strLower (p.status.getD "") = "inforce" → inRenewalWindow d = false →
        (strContains (strLower (p.productName.getD "")) "fixed"
          || strContains (strLower (p.productName.getD "")) "term"
          || ((p.productCode.getD "" != "") && strStarts (p.productCode.getD "") "T")) = true →
        ((check_replacement_opportunity p d).1 = true
          ∧ ((check_replacement_opportunity p d).2 =
              some "Fixed/term product may have replacement options for better value"
            ∨ (check_replacement_opportunity p d).2 =
              some "Term policy; conversion or replacement may be beneficial")))
    ∧ (strLower (p.status.getD "") = "inforce" → inRenewalWindow d = false →
        (strContains (strLower (p.productName.getD "")) "fixed"
          || strContains (strLower (p.productName.getD "")) "term"
          || ((p.productCode.getD "" != "") && strStarts (p.productCode.getD "") "T")) = false →
        check_replacement_opportunity p d = (false, none)) := by
  refine ⟨?_, ?_, ?_, ?_⟩
  · intro hs
    simp [check_replacement_opportunity, hs]
  · intro hs
    rw [← inRenewalWindow_iff]
    unfold check_replacement_opportunity
    simp only [hs, bne_self_eq_false, Bool.false_eq_true, if_false]
    split_ifs with h1 h2 h3 <;> simp [h1]
  · intro hs hw hb
    cases hf : strContains (strLower (p.productName.getD "")) "fixed" <;>
      cases ht : strContains (strLower (p.productName.getD "")) "term" <;>
      cases hc : ((p.productCode.getD "" != "") && strStarts (p.productCode.getD "") "T") <;>
      simp_all [check_replacement_opportunity]
  · intro hs hw hb
    cases hf : strContains (strLower (p.productName.getD "")) "fixed" <;>
      cases ht : strContains (strLower (p.productName.getD "")) "term" <;>
      cases hc : ((p.productCode.getD "" != "") && strStarts (p.productCode.getD "") "T") <;>
      simp_all [check_replacement_opportunity]

/-- Witness for C6: with case-insensitive in-force status, day 30 produces
the maturing reason acting on the boundary, and day 31 does not. -/
theorem replacement_opportunity_spec_witness :
    check_replacement_opportunity { status := some "INFORCE" } (some 30) =
      (true, some "Policy maturing in next 30 days; consider replacement options")
    ∧ check_replacement_opportunity { status := some "INFORCE" } (some 31) ≠
      (true, some "Policy maturing in next 30 days; consider replacement options") := by
  constructor
  · exact ((replacement_opportunity_spec { status := some "INFORCE" } (some 30)).2.1
      (by decide)).mpr ⟨30, rfl, by decide, by decide⟩
  · intro heq
    obtain ⟨dv, hdv, h1, h30⟩ :=
      ((replacement_opportunity_spec { status := some "INFORCE" } (some 31)).2.1
        (by decide)).mp heq
    cases hdv
    omega

/-- A policy whose renewal date is a fixed valid calendar day. -/
def clockSensitivePolicy : PolicyRecord :=
  { status := some "Inforce", renewalDate := some (.valid 100 "1970-04-11") }

/-- C1 counterexample: the current clock date read inside
`get_renewal_info` is a hidden input that changes the output of
`apply_business_logic` for a fixed policy record — evaluated 20 days
before the renewal day the policy is flagged for replacement, evaluated 90
days before it is not. -/
theorem clock_changes_apply_business_logic :
    apply_business_logic 80 clockSensitivePolicy ≠
      apply_business_logic 10 clockSensitivePolicy := by decide

/-- C1 (amended): each of the three core functions is deterministic once
all of its inputs are explicit — in particular `apply_business_logic`
depends only on the policy record *and* the current clock date, which is a
genuine input (see `clock_changes_apply_business_logic`); the other two
core functions read no clock at all. -/
theorem core_functions_deterministic (t t' : Int) (p : PolicyRecord)
    (book : BookOfBusinessOutput) (cid : String) (db : Option DbSuitabilityRow)
    (sp : List CanonProduct) (dp : List DbProduct) (ch : ProfileChangesInput)
    (n : Nat) (h : t = t') :
    apply_business_logic t p = apply_business_logic t' p
    ∧ generate_recommendations cid db sp dp ch n =
        generate_recommendations cid db sp dp ch n
    ∧ map_book_of_business_to_iri_alerts book =
        map_book_of_business_to_iri_alerts book := by
  subst h
  exact ⟨rfl, rfl, rfl⟩

/-- Witness for the amended C1 at concrete inputs. -/
theorem core_functions_deterministic_witness :
    apply_business_logic 0 {} = apply_business_logic 0 {}
    ∧ generate_recommendations "c" none [] [] {} 10 =
        generate_recommendations "c" none [] [] {} 10
    ∧ map_book_of_business_to_iri_alerts ⟨"c", []⟩ =
        map_book_of_business_to_iri_alerts ⟨"c", []⟩ :=
  core_functions_deterministic 0 0 {} ⟨"c", []⟩ "c" none [] [] {} 10 rfl

/-- C7: the alert type list is never empty and is a sublist of the fixed
priority order; the primary type is its first element; `suitability_review`
appears exactly for a meeting recommendation or as the no-flag default; and
with no flag at all the result is exactly `["suitability_review"]` with
description `"Review recommended"`. -/
theorem alert_types_spec (po : PolicyOutput) :
    (_build_alert_types_and_primary po).1 ≠ []
    ∧ List.Sublist (_build_alert_types_and_primary po).1
        [AlertType.replacement_opportunity, AlertType.missing_info,
         AlertType.income_planning, AlertType.suitability_review]
    ∧ (_build_alert_types_and_primary po).1.head? =
        some (_build_alert_types_and_primary po).2.1
    ∧ (AlertType.suitability_review ∈ (_build_alert_types_and_primary po).1 ↔
        (po.schedule_meeting = true
          ∨ (po.replacement_opportunity = false ∧ po.data_quality_issues = []
              ∧ po.income_activation_eligible = false)))
    ∧ ((po.replacement_opportunity = false ∧ po.data_quality_issues = []
          ∧ po.income_activation_eligible = false ∧ po.schedule_meeting = false) →
        ((_build_alert_types_and_primary po).1 = [AlertType.suitability_review]
          ∧ (_build_alert_types_and_primary po).2.2 = "Review recommended")) := by
  cases hr : po.replacement_opportunity <;>
    cases hdq : po.data_quality_issues <;>
    cases hi : po.income_activation_eligible <;>
    cases hm : po.schedule_meeting <;>
    simp_all [_build_alert_types_and_primary, String.intercalate] <;>
    decide

/-- Witness for C7 at a policy output with no flag set. -/
theorem alert_types_spec_witness :
    (_build_alert_types_and_primary { policy := {} }).1 = [AlertType.suitability_review]
    ∧ (_build_alert_types_and_primary { policy := {} }).2.2 = "Review recommended" :=
  (alert_types_spec { policy := {} }).2.2.2.2 ⟨rfl, rfl, rfl, rfl⟩

/-- Python's `x if present else fallback` update step, expressed through
`Option.or`: the delta value wins whenever it is present. -/
lemma opt_ite_isSome (o b : Option String) :
    (if o.isSome then o else b) = o.or b := by
  cases o <;> rfl

lemma opt_or_none (o : Option String) : o.or none = o := by
  cases o <;> rfl

lemma opt_none_or (b : Option String) : Option.or none b = b := rfl

/-- C4: complete merge-precedence characterization.  For every one of the
eleven delta fields, a present (non-`none`) value determines its merged
key regardless of the baseline (`Option.or` with the delta on the left),
per the fixed asymmetric mapping: `riskTolerance → risk_tolerance`,
`timeHorizon → time_horizon`, `liquidityNeeds → liquidity_needs`,
`clientObjectives → client_objectives`, `financialObjectives →
financial_objectives`, `distributionPlan → distribution_plan`,
`expectedHoldingPeriod → expected_holding_period`, `grossIncome →
gross_income`, `householdNetWorth → household_net_worth`,
`householdLiquidAssets → household_liquid_assets`, `taxBracket →
tax_bracket` (the only delta key that overwrites a baseline-seeded key in
the goals dict).  An absent delta field leaves the baseline-seeded value
(`db.bind column`, or `none` for the delta-only keys); with no baseline
every `db.bind` is `none`, so only delta-provided fields are populated. -/
theorem merge_precedence_spec (db : Option DbSuitabilityRow)
    (ch : ProfileChangesInput) :
    (_merge_suitability db ch = {
      seeded := db.isSome
      risk_tolerance := (ch.suitability.bind SuitabilityChanges.riskTolerance).or
        (db.bind DbSuitabilityRow.risk_tolerance)
      primary_objective := db.bind DbSuitabilityRow.primary_objective
      secondary_objective := db.bind DbSuitabilityRow.secondary_objective
      liquidity_importance := db.bind DbSuitabilityRow.liquidity_importance
      investment_horizon := db.bind DbSuitabilityRow.investment_horizon
      withdrawal_horizon := db.bind DbSuitabilityRow.withdrawal_horizon
      current_income_need := db.bind DbSuitabilityRow.current_income_need
      age := db.bind DbSuitabilityRow.age
      state := db.bind DbSuitabilityRow.state
      time_horizon := ch.suitability.bind SuitabilityChanges.timeHorizon
      liquidity_needs := ch.suitability.bind SuitabilityChanges.liquidityNeeds
      client_objectives := ch.suitability.bind SuitabilityChanges.clientObjectives })
    ∧ (_merge_goals_and_profile db ch = {
      seeded := db.isSome
      annual_income_range := db.bind DbSuitabilityRow.annual_income_range
      net_worth_range := db.bind DbSuitabilityRow.net_worth_range
      liquid_net_worth_range := db.bind DbSuitabilityRow.liquid_net_worth_range
      tax_bracket := (ch.client_profile.bind ClientProfileChanges.taxBracket).or
        (db.bind DbSuitabilityRow.tax_bracket)
      financial_objectives :=
        ch.client_goals.bind ClientGoalsChanges.financialObjectives
      distribution_plan := ch.client_goals.bind ClientGoalsChanges.distributionPlan
      expected_holding_period :=
        ch.client_goals.bind ClientGoalsChanges.expectedHoldingPeriod
      gross_income := ch.client_profile.bind ClientProfileChanges.grossIncome
      household_net_worth :=
        ch.client_profile.bind ClientProfileChanges.householdNetWorth
      household_liquid_assets :=
        ch.client_profile.bind ClientProfileChanges.householdLiquidAssets })
    ∧ (db = none → ch.suitability = none → _merge_suitability db ch = {})
    ∧ (db = none → ch.client_goals = none → ch.client_profile = none →
        _merge_goals_and_profile db ch = {}) := by
  refine ⟨?_, ?_, ?_, ?_⟩
  · cases db <;> cases hs : ch.suitability <;>
      simp [_merge_suitability, hs, opt_ite_isSome, opt_or_none, opt_none_or]
  · cases db <;> cases hg : ch.client_goals <;> cases hp : ch.client_profile <;>
      simp [_merge_goals_and_profile, hg, hp, opt_ite_isSome, opt_or_none, opt_none_or]
  · intro h1 h2
    simp [_merge_suitability, h1, h2]
  · intro h1 h2 h3
    simp [_merge_goals_and_profile, h1, h2, h3]

/-- Witness for C4: a delta `riskTolerance = "Aggressive"` overrides a
baseline `risk_tolerance = "Conservative"`, and the empty input produces
the empty merged dict. -/
theorem merge_precedence_spec_witness :
    (_merge_suitability (some { risk_tolerance := some "Conservative" })
        { suitability := some { riskTolerance := some "Aggressive" } }).risk_tolerance
      = some "Aggressive"
    ∧ _merge_suitability none {} = {} := by
  constructor
  · rw [(merge_precedence_spec (some { risk_tolerance := some "Conservative" })
      { suitability := some { riskTolerance := some "Aggressive" } }).1]
    rfl
  · exact (merge_precedence_spec none {}).2.2.1 rfl rfl

lemma mapLoop_length (c : String) (l : List PolicyOutput) (i : Nat) :
    (mapLoop c l i).1.length = l.length := by
  induction l generalizing i with
  | nil => rfl
  | cons po rest ih => simp [mapLoop, ih]

lemma mapLoop_high (c : String) (l : List PolicyOutput) (i : Nat) :
    (mapLoop c l i).2.2.1 =
      (mapLoop c l i).1.countP (fun a => a.priority == Priority.high) := by
  induction l generalizing i with
  | nil => rfl
  | cons po rest ih =>
      simp only [mapLoop, List.countP_cons, ih, beq_iff_eq]
      split_ifs <;> omega

lemma mapLoop_urgent (c : String) (l : List PolicyOutput) (i : Nat) :
    (mapLoop c l i).2.2.2 =
      (mapLoop c l i).1.countP (fun a => decide (a.daysUntilRenewal ≤ 30)) := by
  induction l generalizing i with
  | nil => rfl
  | cons po rest ih =>
      simp only [mapLoop, List.countP_cons, ih, decide_eq_true_eq]
      split_ifs <;> omega

lemma mapLoop_totalValue (c : String) (l : List PolicyOutput) (i : Nat) :
    (mapLoop c l i).2.1 =
      (l.map (fun po => _policy_numeric_value po.policy)).sum := by
  induction l generalizing i with
  | nil => rfl
  | cons po rest ih => simp [mapLoop, ih]

lemma mapLoop_get (c : String) (l : List PolicyOutput) :
    ∀ (i k : Nat) (po : PolicyOutput), l[k]? = some po →
      (mapLoop c l i).1[k]? = some (processPolicy c (i + k) po) := by
  induction l with
  | nil => intro i k po h; simp at h
  | cons p rest ih =>
      intro i k po h
      cases k with
      | zero =>
          simp only [List.getElem?_cons_zero, Option.some.injEq] at h
          subst h
          simp [mapLoop]
      | succ k =>
          simp only [List.getElem?_cons_succ] at h
          have := ih (i + 1) k po h
          simpa [mapLoop, Nat.add_assoc, Nat.add_comm 1 k] using this

/-- C8: dashboard statistics — `total` is the alert count (one alert per
policy), `high` counts the high-priority alerts, `urgent` counts the
alerts whose days-until-renewal is at most 30, and `totalValue` is the
rounded sum over policies of the first present numeric value field in the
priority order `currentValue`, `annuityValue`, `cashValue`, `faceAmount`,
`deathBenefit` (a present but non-numeric field is skipped). -/
theorem dashboard_stats_spec (book : BookOfBusinessOutput) :
    ((map_book_of_business_to_iri_alerts book).2.total =
        (map_book_of_business_to_iri_alerts book).1.length)
    ∧ ((map_book_of_business_to_iri_alerts book).1.length = book.policies.length)
    ∧ ((map_book_of_business_to_iri_alerts book).2.high =
        (map_book_of_business_to_iri_alerts book).1.countP
          (fun a => a.priority == Priority.high))
    ∧ ((map_book_of_business_to_iri_alerts book).2.urgent =
        (map_book_of_business_to_iri_alerts book).1.countP
          (fun a => decide (a.daysUntilRenewal ≤ 30)))
    ∧ ((map_book_of_business_to_iri_alerts book).2.totalValue =
        round2 ((book.policies.map (fun po => _policy_numeric_value po.policy)).sum))
    ∧ (∀ p : PolicyRecord, ∀ q : ℚ, p.currentValue = some (some q) →
        _policy_numeric_value p = q)
    ∧ (∀ p : PolicyRecord, ∀ q : ℚ,
        (p.currentValue = none ∨ p.currentValue = some none) →
        p.annuityValue = some (some q) → _policy_numeric_value p = q) := by
  refine ⟨rfl, mapLoop_length book.customer_identifier book.policies 0,
    mapLoop_high book.customer_identifier book.policies 0,
    mapLoop_urgent book.customer_identifier book.policies 0,
    congrArg round2 (mapLoop_totalValue book.customer_identifier book.policies 0),
    ?_, ?_⟩
  · intro p q h
    simp [_policy_numeric_value, firstNumeric, h]
  · intro p q h ha
    rcases h with h | h <;> simp [_policy_numeric_value, firstNumeric, h, ha]

/-- Witness for C8's value-extraction conjunct at a concrete record. -/
theorem dashboard_stats_spec_witness :
    _policy_numeric_value { currentValue := some (some 5) } = 5 :=
  (dashboard_stats_spec ⟨"c", []⟩).2.2.2.2.2.1
    { currentValue := some (some 5) } 5 rfl

/-- C10: a policy output with no `days_until_renewal` whose record carries
no due/covered-until date is assigned `daysUntilRenewal = 0` in its alert;
`urgent` counts exactly the alerts with `daysUntilRenewal ≤ 30`; and every
policy with an unknown renewal day has effective days at most 30, hence is
counted as urgent. -/
theorem unknown_renewal_counted_urgent (book : BookOfBusinessOutput)
    (k : Nat) (po : PolicyOutput)
    (hget : book.policies[k]? = some po)
    (hnone : po.days_until_renewal = none)
    (hdue : truthyRD po.policy.nextPremiumDueDate = false)
    (hcov : truthyRD po.policy.coveredUntilDate = false) :
    ((map_book_of_business_to_iri_alerts book).1[k]?.map RenewalAlert.daysUntilRenewal
        = some 0)
    ∧ ((map_book_of_business_to_iri_alerts book).2.urgent =
        (map_book_of_business_to_iri_alerts book).1.countP
          (fun a => decide (a.daysUntilRenewal ≤ 30)))
    ∧ (∀ po' ∈ book.policies, po'.days_until_renewal = none →
        effectiveDaysUntil po' ≤ 30) := by
  refine ⟨?_, mapLoop_urgent book.customer_identifier book.policies 0, ?_⟩
  · have h := mapLoop_get book.customer_identifier book.policies 0 k po hget
    show (mapLoop book.customer_identifier book.policies 0).1[k]?.map
      RenewalAlert.daysUntilRenewal = some 0
    rw [h]
    simp [processPolicy, effectiveDaysUntil, hnone, _policy_renewal_days, hdue, hcov]
  · intro po' _ hn
    unfold effectiveDaysUntil
    rw [hn]
    unfold _policy_renewal_days
    split_ifs <;> decide

/-- Witness for C10 at a one-policy book with no renewal information. -/
theorem unknown_renewal_counted_urgent_witness :
    ((map_book_of_business_to_iri_alerts ⟨"cust", [{ policy := {} }]⟩).1[0]?.map
        RenewalAlert.daysUntilRenewal = some 0)
    ∧ ((map_book_of_business_to_iri_alerts ⟨"cust", [{ policy := {} }]⟩).2.urgent =
        (map_book_of_business_to_iri_alerts ⟨"cust", [{ policy := {} }]⟩).1.countP
          (fun a => decide (a.daysUntilRenewal ≤ 30)))
    ∧ (∀ po' ∈ (BookOfBusinessOutput.mk "cust" [{ policy := {} }]).policies,
        po'.days_until_renewal = none → effectiveDaysUntil po' ≤ 30) :=
  unknown_renewal_counted_urgent ⟨"cust", [{ policy := {} }]⟩ 0 { policy := {} }
    rfl rfl rfl rfl

lemma rateDescLE_trans (a b c : ProductRecommendation)
    (hab : rateDescLE a b) (hbc : rateDescLE b c) : rateDescLE a c := by
  simp only [rateDescLE, decide_eq_true_eq] at *
  exact le_trans hbc hab

lemma rateDescLE_total (a b : ProductRecommendation) :
    rateDescLE a b || rateDescLE b a := by
  simp only [rateDescLE, Bool.or_eq_true, decide_eq_true_eq]
  exact le_total (rate_sort_key b) (rate_sort_key a)

/-- Stability of the descending rate sort: the subsequence of entries with
any fixed rate key is unchanged by sorting, i.e. equal-key entries keep
their original order. -/
lemma mergeSort_rateDesc_filter (l : List ProductRecommendation) (q : ℚ) :
    (l.mergeSort rateDescLE).filter (fun r => rate_sort_key r == q) =
      l.filter (fun r => rate_sort_key r == q) := by
  have hpair : (l.filter (fun r => rate_sort_key r == q)).Pairwise
      (fun a b => rateDescLE a b) := by
    apply List.pairwise_of_forall_mem_list
    intro a ha b hb
    have ha2 : rate_sort_key a = q := by
      have := (List.mem_filter.mp ha).2
      simpa using this
    have hb2 : rate_sort_key b = q := by
      have := (List.mem_filter.mp hb).2
      simpa using this
    simp [rateDescLE, ha2, hb2]
  have h1 : List.Sublist (l.filter (fun r => rate_sort_key r == q))
      (l.mergeSort rateDescLE) :=
    List.sublist_mergeSort rateDescLE_trans rateDescLE_total hpair
      (List.filter_sublist l)
  have h2 : List.Sublist (l.filter (fun r => rate_sort_key r == q))
      ((l.mergeSort rateDescLE).filter (fun r => rate_sort_key r == q)) := by
    have := h1.filter (fun r => rate_sort_key r == q)
    rwa [List.filter_eq_self.mpr (fun a ha => (List.mem_filter.mp ha).2)] at this
  have hlen : (l.filter (fun r => rate_sort_key r == q)).length =
      ((l.mergeSort rateDescLE).filter (fun r => rate_sort_key r == q)).length :=
    (((List.mergeSort_perm l rateDescLE).filter
      (fun r => rate_sort_key r == q)).length_eq).symm
  exact (h2.eq_of_length hlen).symm

/-- The sorted candidate list is pairwise descending in the rate key. -/
lemma mergeSort_rateDesc_sorted (l : List ProductRecommendation) :
    (l.mergeSort rateDescLE).Pairwise
      (fun a b => rate_sort_key b ≤ rate_sort_key a) := by
  have hs := List.sorted_mergeSort rateDescLE_trans rateDescLE_total l
  exact hs.imp (by intro a b h; simpa [rateDescLE, decide_eq_true_eq] using h)

/-- C3: the recommendation list is sorted by descending numeric rate (an
entry with a missing or non-numeric rate sorting with key `0`), equal-rate
entries keep their original catalog order (the truncated output is a
prefix of a stable descending rearrangement of the candidate list), and
the list has at most `max_recommendations` entries (default 10). -/
theorem ranking_spec (cid : String) (db : Option DbSuitabilityRow)
    (sp : List CanonProduct) (dp : List DbProduct) (ch : ProfileChangesInput)
    (n : Nat) :
    ((generate_recommendations cid db sp dp ch n).recommendations.Pairwise
        (fun a b => rate_sort_key b ≤ rate_sort_key a))
    ∧ (generate_recommendations cid db sp dp ch n).recommendations.length ≤ n
    ∧ (∃ full : List ProductRecommendation,
        (generate_recommendations cid db sp dp ch n).recommendations = full.take n
        ∧ full.Perm (candidateRecs db sp dp ch)
        ∧ full.Pairwise (fun a b => rate_sort_key b ≤ rate_sort_key a)
        ∧ ∀ q : ℚ, full.filter (fun r => rate_sort_key r == q) =
            (candidateRecs db sp dp ch).filter (fun r => rate_sort_key r == q))
    ∧ (∀ r : ProductRecommendation, rate_sort_key r = r.rate.getD 0)
    ∧ default_max_recommendations = 10 := by
  refine ⟨?_, ?_,
    ⟨(candidateRecs db sp dp ch).mergeSort rateDescLE, rfl,
      List.mergeSort_perm _ _, mergeSort_rateDesc_sorted _,
      fun q => mergeSort_rateDesc_filter _ q⟩,
    fun r => rfl, rfl⟩
  · exact List.Pairwise.sublist (List.take_sublist n _)
      (mergeSort_rateDesc_sorted (candidateRecs db sp dp ch))
  · show (((candidateRecs db sp dp ch).mergeSort rateDescLE).take n).length ≤ n
    exact List.length_take_le n _

end BookCore
